import Mathlib

/-!
Verification of the Task Tracker subsystem of the LegalIntel-V2 repository.

The subsystem consists of:
* `createTask` / `processClassifyDocumentTask` / `processAskQuestionTask`
  (server actions, `src/app/actions.ts`), and
* the `useTask` client subscription hook.

External collaborators (the Firestore document store, and the generative-AI
handlers `classifyDocument` / `askDocumentQuestion`) are modelled as oracles:
each awaited external call is a parameter that either succeeds with a value or
throws with a message, exactly mirroring the `try`/`catch` control flow of the
source.  Firestore `update` merges fields, so a task write is modelled as a
partial record applied field-wise.
-/

namespace LegalIntel

/-- Task status, the `status` field of a task record. -/
inductive Status
  | pending
  | processing
  | completed
  | failed
  deriving DecidableEq, Repr

/-- A status is terminal when it is `completed` or `failed`. -/
def Status.isTerminal : Status → Bool
  | .completed => true
  | .failed => true
  | _ => false

/-- Position of a status along the lifecycle
`pending → processing → \x7bcompleted, failed\x7d`. -/
def Status.rank : Status → Nat
  | .pending => 0
  | .processing => 1
  | .completed => 2
  | .failed => 2

/-- Opaque task payload.  The handlers forward it to the external model; the
classify handler additionally copies `fileName` / `fileAsBase64` / `mimeType`
into the history record. -/
structure Payload where
  fileName : String
  fileAsBase64 : String
  mimeType : String
  deriving DecidableEq, Repr

/-- `expenditureAnalysis` sub-object of the classify output
(`classify-uploaded-document` flow). -/
structure ExpenditureAnalysis where
  estimatedHearings : Int
  estimatedCostRange : String
  deriving DecidableEq, Repr

/-- A lawyer document returned by the `lawyers` collection query
(`id` plus the spread document data used by the cost computation). -/
structure Lawyer where
  id : String
  costPerHearing : Int
  deriving DecidableEq, Repr

/-- The successful output of the external `classifyDocument` call, restricted
to the fields the task tracker inspects.  `lawyerCategory` is `none` when the
field is absent or empty (falsy in the source's `if (result.lawyerCategory)`
test). -/
structure ClassifyOutput where
  lawyerCategory : Option String
  expenditureAnalysis : ExpenditureAnalysis
  deriving DecidableEq, Repr

/-- The final result object stored by the classify handler: the model output
enriched with `recommendedLawyers` and a rewritten
`expenditureAnalysis.estimatedCostRange`. -/
structure FinalClassifyResult where
  base : ClassifyOutput
  recommendedLawyers : List Lawyer
  estimatedCostRange : String
  deriving DecidableEq, Repr

/-- The successful output of the external `askDocumentQuestion` call, opaque
to the task tracker (stored verbatim as `result`). -/
structure AnswerOutput where
  answer : String
  deriving DecidableEq, Repr

/-- The `result` field of a task record: classify output or question answer,
depending on the task's `type`. -/
inductive ResultVal
  | classify (r : FinalClassifyResult)
  | answer (r : AnswerOutput)
  deriving DecidableEq, Repr

/-- A stored task record (`users/\x7buid\x7d/tasks/\x7bid\x7d` document). -/
structure TaskRecord where
  type : String
  payload : Payload
  status : Status
  result : Option ResultVal
  error : Option String
  deriving DecidableEq, Repr

/-- A successful Firestore `update` on a task record.  Every update in the
source sets `status`; `result` / `error` are set only when present (Firestore
`update` merges: absent fields are left unchanged). -/
structure TaskWrite where
  status : Status
  result : Option ResultVal
  error : Option String
  deriving DecidableEq, Repr

/-- The `\x7b status: 'processing' \x7d` update. -/
def TaskWrite.processingW : TaskWrite :=
  ⟨.processing, none, none⟩

/-- The `\x7b status: 'completed', result \x7d` update. -/
def TaskWrite.completedW (r : ResultVal) : TaskWrite :=
  ⟨.completed, some r, none⟩

/-- The `\x7b status: 'failed', error \x7d` update. -/
def TaskWrite.failedW (m : String) : TaskWrite :=
  ⟨.failed, none, some m⟩

/-- Apply one merged update to a record: fields present in the update replace
the stored fields, absent fields are kept. -/
def applyWrite (r : TaskRecord) (w : TaskWrite) : TaskRecord :=
  { r with
    status := w.status
    result := match w.result with | some v => some v | none => r.result
    error := match w.error with | some m => some m | none => r.error }

/-- Apply a sequence of updates in write order. -/
def applyTrace (r : TaskRecord) (ws : List TaskWrite) : TaskRecord :=
  ws.foldl applyWrite r

/-- Outcome of invoking an external handler: it resolves with a value, resolves
with an object carrying an `error` field (which the process functions turn into
a thrown `Error(result.error)`), or rejects with message `m`. -/
inductive HandlerResult (α : Type)
  | ok (r : α)
  | errField (m : String)
  | hthrow (m : String)

/-- Outcome of one awaited storage write: `none` = success,
`some m` = the write rejects with message `m`. -/
abbrev WriteOracle := Option String

/-- Oracles consumed by `processAskQuestionTask`, one per awaited external
call, in program order. -/
structure AskOracles where
  wProcessing : WriteOracle
  handler : HandlerResult AnswerOutput
  wCompleted : WriteOracle
  wFailed : WriteOracle

/-- The catch block `updateTask(..., \x7b status:'failed', error:e.message \x7d)`:
one failed-status write when it succeeds, nothing when it also rejects
(the rejection is unhandled and no further write happens). -/
def catchTrace (wFailed : WriteOracle) (m : String) : List TaskWrite :=
  match wFailed with
  | none => [TaskWrite.failedW m]
  | some _ => []

/-- The sequence of successful task-record writes performed by
`processAskQuestionTask`, as a function of its oracles.  Mirrors the source:
update to `processing`, await `askDocumentQuestion`, throw on an `error`
field, update to `completed` with the verbatim result; any thrown error is
caught and written as `failed` with the error's message. -/
def processAskQuestionTask (o : AskOracles) : List TaskWrite :=
  match o.wProcessing with
  | some m => catchTrace o.wFailed m
  | none =>
    match o.handler with
    | .hthrow m => TaskWrite.processingW :: catchTrace o.wFailed m
    | .errField m => TaskWrite.processingW :: catchTrace o.wFailed m
    | .ok r =>
      match o.wCompleted with
      | some m => TaskWrite.processingW :: catchTrace o.wFailed m
      | none => [TaskWrite.processingW, TaskWrite.completedW (.answer r)]

/-- Oracles consumed by `processClassifyDocumentTask`, one per awaited
external call, in program order.  `lawyersQuery` is consulted only when the
classify output has a truthy `lawyerCategory`; `wHistory` is the history-
collection `add`, whose failure is swallowed by the inner `try`/`catch`. -/
structure ClassifyOracles where
  wProcessing : WriteOracle
  handler : HandlerResult ClassifyOutput
  lawyersQuery : Except String (List Lawyer)
  wHistory : WriteOracle
  wCompleted : WriteOracle
  wFailed : WriteOracle

/-- Cost-range computation of the classify handler: per-lawyer cost is
`costPerHearing * estimatedHearings`, non-positive costs are filtered out, and
the range string is built from the minimum and maximum when any remain. -/
def estimatedCostRangeOf (lawyers : List Lawyer) (hearings : Int) : String :=
  if hearings > 0 ∧ lawyers.length > 0 then
    let costs := (lawyers.map (fun l => l.costPerHearing * hearings)).filter
      (fun c => c > 0)
    match costs with
    | [] => "N/A"
    | c :: cs =>
      let minCost := cs.foldl min c
      let maxCost := cs.foldl max c
      s!"₹{minCost} - ₹{maxCost}"
  else "N/A"

/-- Whether the source's `if (result.lawyerCategory)` test passes, i.e. the
field is present and non-empty (only then is the `lawyers` query awaited). -/
def categoryTruthy (out : ClassifyOutput) : Bool :=
  match out.lawyerCategory with
  | some c => c ≠ ""
  | none => false

/-- The `finalResult` object the classify handler stores: the model output
with `recommendedLawyers` attached and `estimatedCostRange` filled in
(`[]` / `"N/A"` when the category is falsy or the query comes back empty). -/
def classifyFinalResult (out : ClassifyOutput) (lawyers : List Lawyer) :
    FinalClassifyResult :=
  if categoryTruthy out && !lawyers.isEmpty then
    { base := out
      recommendedLawyers := lawyers
      estimatedCostRange :=
        estimatedCostRangeOf lawyers out.expenditureAnalysis.estimatedHearings }
  else
    { base := out, recommendedLawyers := [], estimatedCostRange := "N/A" }

/-- The sequence of successful task-record writes performed by
`processClassifyDocumentTask`, as a function of its oracles.  Mirrors the
source: update to `processing`, await `classifyDocument`, throw on an `error`
field, optionally query the `lawyers` collection, build `finalResult`, attempt
the history write (failure swallowed), update to `completed` with
`finalResult`; any uncaught thrown error is written as `failed`. -/
def processClassifyDocumentTask (o : ClassifyOracles) : List TaskWrite :=
  match o.wProcessing with
  | some m => catchTrace o.wFailed m
  | none =>
    match o.handler with
    | .hthrow m => TaskWrite.processingW :: catchTrace o.wFailed m
    | .errField m => TaskWrite.processingW :: catchTrace o.wFailed m
    | .ok out =>
      if categoryTruthy out then
        match o.lawyersQuery with
        | .error m => TaskWrite.processingW :: catchTrace o.wFailed m
        | .ok lawyers =>
          match o.wCompleted with
          | some m => TaskWrite.processingW :: catchTrace o.wFailed m
          | none =>
            [TaskWrite.processingW,
             TaskWrite.completedW (.classify (classifyFinalResult out lawyers))]
      else
        match o.wCompleted with
        | some m => TaskWrite.processingW :: catchTrace o.wFailed m
        | none =>
          [TaskWrite.processingW,
           TaskWrite.completedW (.classify (classifyFinalResult out []))]

/-- The `\x7b type, payload \x7d` argument of `createTask`. -/
structure TaskData where
  type : String
  payload : Payload
  deriving DecidableEq, Repr

/-- The initial record `createTask` adds: the spread task data plus
`status: 'pending'` (no `result`, no `error`). -/
def initialRecord (td : TaskData) : TaskRecord :=
  { type := td.type, payload := td.payload, status := .pending,
    result := none, error := none }

/-- Which process function `createTask` dispatches to. -/
inductive HandlerKind
  | classifyDocument
  | askQuestion
  deriving DecidableEq, Repr

/-- Observable outcome of one `createTask` call: the value returned to the
caller, the initial record persisted (if any), the handler dispatched (if
any), and the sequence of subsequent task-record writes. -/
structure SubmitResult where
  ret : Except String String
  record : Option TaskRecord
  dispatched : Option HandlerKind
  trace : List TaskWrite
  deriving Repr

/-- `createTask(userId, taskData)`.  `taskData = none` models a null argument;
`add` is the oracle for the initial `tasks.add` write (task id on success,
thrown message on failure).  Mirrors the source: reject empty `userId` or null
`taskData` synchronously; on a successful add, dispatch the matching process
function without awaiting it and return the task id; on a failed add, return
an error and touch nothing. -/
def createTask (userId : String) (taskData : Option TaskData)
    (add : Except String String) (co : ClassifyOracles) (ao : AskOracles) :
    SubmitResult :=
  if userId = "" ∨ taskData = none then
    { ret := .error "User ID and task data are required.",
      record := none, dispatched := none, trace := [] }
  else
    match taskData with
    | none =>
      { ret := .error "User ID and task data are required.",
        record := none, dispatched := none, trace := [] }
    | some td =>
      match add with
      | .error m =>
        { ret := .error ("Failed to create the task. " ++ m),
          record := none, dispatched := none, trace := [] }
      | .ok taskId =>
        if td.type = "classifyDocument" then
          { ret := .ok taskId, record := some (initialRecord td),
            dispatched := some .classifyDocument,
            trace := processClassifyDocumentTask co }
        else if td.type = "askQuestion" then
          { ret := .ok taskId, record := some (initialRecord td),
            dispatched := some .askQuestion,
            trace := processAskQuestionTask ao }
        else
          { ret := .ok taskId, record := some (initialRecord td),
            dispatched := none, trace := [] }

/-- The status sequence written to a task's record over one submission: the
initial `pending` of the created record followed by the statuses of the
handler's successful updates (empty when no record was created). -/
def statusSeq (s : SubmitResult) : List Status :=
  match s.record with
  | none => []
  | some r => r.status :: s.trace.map TaskWrite.status

/-- The task record after all of the submission's successful writes have been
applied to the created record (`none` when no record was created). -/
def finalRecord (s : SubmitResult) : Option TaskRecord :=
  s.record.map (fun r => applyTrace r s.trace)

/-- `true` iff every adjacent pair of the status sequence strictly advances
along `pending → processing → \x7bcompleted, failed\x7d` and no non-final
element is terminal: the sequence is a subsequence of that order and nothing
follows a terminal status. -/
def monotoneStatusSeq : List Status → Bool
  | [] => true
  | [_] => true
  | a :: b :: rest =>
    decide (a.rank < b.rank) && !a.isTerminal && monotoneStatusSeq (b :: rest)

/-- `true` iff the record's `result` / `error` fields match its status:
completed → exactly `result`, failed → exactly `error`, otherwise neither. -/
def resultErrorConsistent (r : TaskRecord) : Bool :=
  match r.status with
  | .pending => r.result.isNone && r.error.isNone
  | .processing => r.result.isNone && r.error.isNone
  | .completed => r.result.isSome && r.error.isNone
  | .failed => r.error.isSome && r.result.isNone

/-- `resultErrorConsistent` of the submission's final record (`true` when no
record was created). -/
def finalConsistent (s : SubmitResult) : Bool :=
  match finalRecord s with
  | none => true
  | some r => resultErrorConsistent r

/-! ### The `useTask` client subscription hook -/

/-- One Firestore snapshot delivery to the `onSnapshot` callback pair:
the document exists with data `t`, the document does not exist, or the
listener's error callback fires. -/
inductive SnapEvent
  | found (t : TaskRecord)
  | absent
  | listenError

/-- The hook's observable state: the React `task` / `isLoading` / `error`
state, the log of `onUpdate` invocations in dispatch order, and whether
`unsubscribe()` has been called from inside the callback. -/
structure HookState where
  task : Option TaskRecord
  isLoading : Bool
  error : Option String
  updates : List TaskRecord
  unsubscribed : Bool
  deriving Repr

/-- Hook state right after the effect subscribes:
`setIsLoading(true); setError(null)`, no task yet, no callbacks yet. -/
def initHookState : HookState :=
  { task := none, isLoading := true, error := none, updates := [],
    unsubscribed := false }

/-- One snapshot dispatch, mirroring the `onSnapshot` callbacks of `useTask`:
after `unsubscribe()` no callback fires; an existing document updates `task`,
invokes `onUpdate`, and — when the status is terminal — clears loading and
unsubscribes; a missing document sets the not-found error; a listener error
sets the failure error.  Neither of the last two invokes `onUpdate`. -/
def hookStep (s : HookState) (e : SnapEvent) : HookState :=
  if s.unsubscribed then s
  else
    match e with
    | .found t =>
      if t.status.isTerminal then
        { s with task := some t, updates := s.updates ++ [t],
                 isLoading := false, unsubscribed := true }
      else
        { s with task := some t, updates := s.updates ++ [t] }
    | .absent =>
      { s with error := some "Task not found.", isLoading := false }
    | .listenError =>
      { s with error := some "Failed to get task status.", isLoading := false }

/-- Run the subscription over a sequence of snapshot deliveries in order. -/
def runHook (s : HookState) : List SnapEvent → HookState
  | [] => s
  | e :: rest => runHook (hookStep s e) rest

/-- `true` iff every element of the callback log except possibly the last one
is non-terminal: once a terminal record is delivered, no further `onUpdate`
callback fires. -/
def terminalOnlyLast : List TaskRecord → Bool
  | [] => true
  | [_] => true
  | r :: rest => (!r.status.isTerminal) && terminalOnlyLast rest

/-! ### Status monotonicity of the process functions -/

/-- The writes of `processAskQuestionTask`, prefixed by the initial `pending`,
always advance strictly along the lifecycle. -/
theorem askTrace_monotone (o : AskOracles) :
    monotoneStatusSeq
      (.pending :: (processAskQuestionTask o).map TaskWrite.status) = true := by
  rcases o with ⟨w1, h, w2, w3⟩
  cases w1 <;> cases h <;> cases w2 <;> cases w3 <;> rfl

/-- The writes of `processClassifyDocumentTask`, prefixed by the initial
`pending`, always advance strictly along the lifecycle. -/
theorem classifyTrace_monotone (o : ClassifyOracles) :
    monotoneStatusSeq
      (.pending :: (processClassifyDocumentTask o).map TaskWrite.status) = true := by
  rcases o with ⟨w1, h, q, wh, w2, w3⟩
  cases w1 with
  | some m => cases w3 <;> rfl
  | none =>
    cases h with
    | hthrow m => cases w3 <;> rfl
    | errField m => cases w3 <;> rfl
    | ok out =>
      cases hct : categoryTruthy out with
      | true =>
        cases q with
        | error m =>
          cases w3 <;> simp [processClassifyDocumentTask, hct, catchTrace,
            monotoneStatusSeq, TaskWrite.processingW, TaskWrite.failedW,
            Status.rank, Status.isTerminal]
        | ok lawyers =>
          cases w2 with
          | some m =>
            cases w3 <;> simp [processClassifyDocumentTask, hct, catchTrace,
              monotoneStatusSeq, TaskWrite.processingW, TaskWrite.failedW,
              Status.rank, Status.isTerminal]
          | none =>
            simp [processClassifyDocumentTask, hct, monotoneStatusSeq,
              TaskWrite.processingW, TaskWrite.completedW, Status.rank,
              Status.isTerminal]
      | false =>
        cases w2 with
        | some m =>
          cases w3 <;> simp [processClassifyDocumentTask, hct, catchTrace,
            monotoneStatusSeq, TaskWrite.processingW, TaskWrite.failedW,
            Status.rank, Status.isTerminal]
        | none =>
          simp [processClassifyDocumentTask, hct, monotoneStatusSeq,
            TaskWrite.processingW, TaskWrite.completedW, Status.rank,
            Status.isTerminal]

/-- C2: for every submission — any owner, task data, storage outcomes and
handler outcomes — the sequence of status values written to the task record is
a strictly advancing subsequence of `pending → processing → \x7bcompleted,
failed\x7d`, and no write ever follows a terminal status. -/
theorem task_status_monotone (userId : String) (td : Option TaskData)
    (add : Except String String) (co : ClassifyOracles) (ao : AskOracles) :
    monotoneStatusSeq (statusSeq (createTask userId td add co ao)) = true := by
  unfold createTask
  split
  · rfl
  · split
    · rfl
    · split
      · rfl
      · split
        · simpa [statusSeq, initialRecord] using classifyTrace_monotone co
        · split
          · simpa [statusSeq, initialRecord] using askTrace_monotone ao
          · rfl

/-! ### Result/error exclusivity -/

/-- The final record of an ask-question task has `result` / `error` matching
its status. -/
theorem askTrace_consistent (td : TaskData) (o : AskOracles) :
    resultErrorConsistent
      (applyTrace (initialRecord td) (processAskQuestionTask o)) = true := by
  rcases o with ⟨w1, h, w2, w3⟩
  cases w1 <;> cases h <;> cases w2 <;> cases w3 <;> rfl

/-- The final record of a classify task has `result` / `error` matching its
status. -/
theorem classifyTrace_consistent (td : TaskData) (o : ClassifyOracles) :
    resultErrorConsistent
      (applyTrace (initialRecord td) (processClassifyDocumentTask o)) = true := by
  rcases o with ⟨w1, h, q, wh, w2, w3⟩
  cases w1 with
  | some m => cases w3 <;> rfl
  | none =>
    cases h with
    | hthrow m => cases w3 <;> rfl
    | errField m => cases w3 <;> rfl
    | ok out =>
      cases hct : categoryTruthy out with
      | true =>
        cases q with
        | error m =>
          cases w3 <;> simp [processClassifyDocumentTask, hct, catchTrace,
            applyTrace, applyWrite, initialRecord, resultErrorConsistent,
            TaskWrite.processingW, TaskWrite.failedW]
        | ok lawyers =>
          cases w2 with
          | some m =>
            cases w3 <;> simp [processClassifyDocumentTask, hct, catchTrace,
              applyTrace, applyWrite, initialRecord, resultErrorConsistent,
              TaskWrite.processingW, TaskWrite.failedW]
          | none =>
            simp [processClassifyDocumentTask, hct, applyTrace, applyWrite,
              initialRecord, resultErrorConsistent, TaskWrite.processingW,
              TaskWrite.completedW]
      | false =>
        cases w2 with
        | some m =>
          cases w3 <;> simp [processClassifyDocumentTask, hct, catchTrace,
            applyTrace, applyWrite, initialRecord, resultErrorConsistent,
            TaskWrite.processingW, TaskWrite.failedW]
        | none =>
          simp [processClassifyDocumentTask, hct, applyTrace, applyWrite,
            initialRecord, resultErrorConsistent, TaskWrite.processingW,
            TaskWrite.completedW]

/-- C3: for every submission, the final task record (when one was created) has
exactly `result` set when completed, exactly `error` set when failed, and
neither set while pending or processing. -/
theorem task_result_error_exclusive (userId : String) (td : Option TaskData)
    (add : Except String String) (co : ClassifyOracles) (ao : AskOracles) :
    finalConsistent (createTask userId td add co ao) = true := by
  unfold createTask
  split
  · rfl
  · split
    · rfl
    · split
      · rfl
      · split
        · simpa [finalConsistent, finalRecord] using
            classifyTrace_consistent _ co
        · split
          · simpa [finalConsistent, finalRecord] using
              askTrace_consistent _ ao
          · rfl

/-! ### Submission return value -/

/-- C4: for every valid submission whose initial pending write succeeds with
id `taskId`, `createTask` returns `taskId`, whatever the classify and
ask-question oracles — i.e. whatever the dispatched handler later does. -/
theorem createTask_returns_id (userId : String) (td : TaskData)
    (taskId : String) (co : ClassifyOracles) (ao : AskOracles)
    (h : userId ≠ "") :
    (createTask userId (some td) (.ok taskId) co ao).ret = .ok taskId := by
  have hcond : ¬(userId = "" ∨ (some td : Option TaskData) = none) := by
    simp [h]
  unfold createTask
  rw [if_neg hcond]
  by_cases h1 : td.type = "classifyDocument" <;>
    by_cases h2 : td.type = "askQuestion" <;>
    simp [h1, h2]

/-- Closed instance of `createTask_returns_id`. -/
theorem createTask_returns_id_witness :
    (createTask "u1" (some ⟨"askQuestion", ⟨"f", "b", "m"⟩⟩) (.ok "t1")
        ⟨none, .hthrow "x", .ok [], none, none, none⟩
        ⟨none, .hthrow "x", none, none⟩).ret = .ok "t1" :=
  createTask_returns_id "u1" ⟨"askQuestion", ⟨"f", "b", "m"⟩⟩ "t1"
    ⟨none, .hthrow "x", .ok [], none, none, none⟩
    ⟨none, .hthrow "x", none, none⟩ (by decide)

/-! ### Handler outcome determines the terminal record -/

/-- C5: when the ask-question handler runs and the status writes themselves
succeed, the task ends `completed` with the handler's verbatim result, and
ends `failed` with error message `m` when the handler throws `m` or resolves
with an explicit error value `m`. -/
theorem askQuestion_outcome (td : TaskData) (o : AskOracles)
    (hp : o.wProcessing = none) (hc : o.wCompleted = none)
    (hf : o.wFailed = none) :
    applyTrace (initialRecord td) (processAskQuestionTask o) =
      (match o.handler with
       | .ok r =>
         { type := td.type, payload := td.payload, status := .completed,
           result := some (.answer r), error := none }
       | .errField m =>
         { type := td.type, payload := td.payload, status := .failed,
           result := none, error := some m }
       | .hthrow m =>
         { type := td.type, payload := td.payload, status := .failed,
           result := none, error := some m }) := by
  rcases o with ⟨w1, h, w2, w3⟩
  simp only at hp hc hf
  subst hp
  subst hc
  subst hf
  cases h <;> rfl

/-- Closed instance of `askQuestion_outcome`: a handler that throws
`"disk full"` leaves the task `failed` with that message. -/
theorem askQuestion_outcome_witness :
    applyTrace (initialRecord ⟨"askQuestion", ⟨"f", "b", "m"⟩⟩)
        (processAskQuestionTask ⟨none, .hthrow "disk full", none, none⟩) =
      { type := "askQuestion", payload := ⟨"f", "b", "m"⟩, status := .failed,
        result := none, error := some "disk full" } :=
  askQuestion_outcome ⟨"askQuestion", ⟨"f", "b", "m"⟩⟩
    ⟨none, .hthrow "disk full", none, none⟩ rfl rfl rfl

/-! ### Failed initial write -/

/-- C6: when the initial `add` of the pending record throws `m`, `createTask`
returns an error, creates no record, dispatches no handler, and performs no
further write. -/
theorem createTask_add_failure (userId : String) (td : TaskData) (m : String)
    (co : ClassifyOracles) (ao : AskOracles) (h : userId ≠ "") :
    createTask userId (some td) (.error m) co ao =
      { ret := .error ("Failed to create the task. " ++ m),
        record := none, dispatched := none, trace := [] } := by
  have hcond : ¬(userId = "" ∨ (some td : Option TaskData) = none) := by
    simp [h]
  unfold createTask
  rw [if_neg hcond]

/-- Closed instance of `createTask_add_failure`. -/
theorem createTask_add_failure_witness :
    createTask "u1" (some ⟨"askQuestion", ⟨"f", "b", "m"⟩⟩) (.error "down")
        ⟨none, .hthrow "x", .ok [], none, none, none⟩
        ⟨none, .hthrow "x", none, none⟩ =
      { ret := .error ("Failed to create the task. " ++ "down"),
        record := none, dispatched := none, trace := [] } :=
  createTask_add_failure "u1" ⟨"askQuestion", ⟨"f", "b", "m"⟩⟩ "down"
    ⟨none, .hthrow "x", .ok [], none, none, none⟩
    ⟨none, .hthrow "x", none, none⟩ (by decide)

/-! ### History write failure is harmless -/

/-- C9: the classify handler's trace of task-record writes never depends on
the history write's outcome, and when the handler and the status writes
succeed the task ends `completed` carrying the full `finalResult` — whatever
happened to the history write. -/
theorem classify_history_failure_harmless (o : ClassifyOracles)
    (wh' : WriteOracle) (td : TaskData) (out : ClassifyOutput)
    (lawyers : List Lawyer) (hh : o.handler = .ok out)
    (hp : o.wProcessing = none) (hc : o.wCompleted = none)
    (hq : o.lawyersQuery = .ok lawyers) :
    processClassifyDocumentTask o =
      processClassifyDocumentTask { o with wHistory := wh' } ∧
    applyTrace (initialRecord td) (processClassifyDocumentTask o) =
      { type := td.type, payload := td.payload, status := .completed,
        result := some (.classify (classifyFinalResult out lawyers)),
        error := none } := by
  rcases o with ⟨w1, h, q, wh, w2, w3⟩
  simp only at hh hp hc hq
  subst hh
  subst hp
  subst hc
  subst hq
  constructor
  · cases hct : categoryTruthy out <;>
      simp [processClassifyDocumentTask, hct]
  · cases hct : categoryTruthy out with
    | false =>
      have hres : classifyFinalResult out [] = classifyFinalResult out lawyers := by
        simp [classifyFinalResult, hct]
      simp [processClassifyDocumentTask, hct, hres, applyTrace, applyWrite,
        initialRecord, TaskWrite.processingW, TaskWrite.completedW]
    | true =>
      simp [processClassifyDocumentTask, hct, applyTrace, applyWrite,
        initialRecord, TaskWrite.processingW, TaskWrite.completedW]

/-- Closed instance of `classify_history_failure_harmless`: the history write
throws yet the task still completes with the full result. -/
theorem classify_history_failure_harmless_witness :
    processClassifyDocumentTask
        ⟨none, .ok ⟨none, ⟨0, "N/A"⟩⟩, .ok [], some "history down", none, none⟩ =
      processClassifyDocumentTask
        ⟨none, .ok ⟨none, ⟨0, "N/A"⟩⟩, .ok [], none, none, none⟩ ∧
    applyTrace (initialRecord ⟨"classifyDocument", ⟨"f", "b", "m"⟩⟩)
        (processClassifyDocumentTask
          ⟨none, .ok ⟨none, ⟨0, "N/A"⟩⟩, .ok [], some "history down", none, none⟩) =
      { type := "classifyDocument", payload := ⟨"f", "b", "m"⟩,
        status := .completed,
        result := some (.classify (classifyFinalResult ⟨none, ⟨0, "N/A"⟩⟩ [])),
        error := none } :=
  classify_history_failure_harmless
    ⟨none, .ok ⟨none, ⟨0, "N/A"⟩⟩, .ok [], some "history down", none, none⟩
    none ⟨"classifyDocument", ⟨"f", "b", "m"⟩⟩ ⟨none, ⟨0, "N/A"⟩⟩ []
    rfl rfl rfl rfl

/-! ### Unknown task types -/

/-- C10: a submission with non-empty owner whose type matches no handler
creates a pending record, returns its id as success, dispatches no handler,
and performs no further status write — the record stays `pending`. -/
theorem createTask_unknown_type (userId : String) (td : TaskData)
    (taskId : String) (co : ClassifyOracles) (ao : AskOracles)
    (h : userId ≠ "") (h1 : td.type ≠ "classifyDocument")
    (h2 : td.type ≠ "askQuestion") :
    createTask userId (some td) (.ok taskId) co ao =
      { ret := .ok taskId, record := some (initialRecord td),
        dispatched := none, trace := [] } ∧
    (initialRecord td).status = .pending ∧
    statusSeq (createTask userId (some td) (.ok taskId) co ao) =
      [.pending] := by
  have hcond : ¬(userId = "" ∨ (some td : Option TaskData) = none) := by
    simp [h]
  have hmain : createTask userId (some td) (.ok taskId) co ao =
      { ret := .ok taskId, record := some (initialRecord td),
        dispatched := none, trace := [] } := by
    unfold createTask
    rw [if_neg hcond]
    simp [h1, h2]
  exact ⟨hmain, rfl, by rw [hmain]; rfl⟩

/-- Closed instance of `createTask_unknown_type` at type `"echo"`. -/
theorem createTask_unknown_type_witness :
    createTask "u1" (some ⟨"echo", ⟨"f", "b", "m"⟩⟩) (.ok "t1")
        ⟨none, .hthrow "x", .ok [], none, none, none⟩
        ⟨none, .hthrow "x", none, none⟩ =
      { ret := .ok "t1",
        record := some (initialRecord ⟨"echo", ⟨"f", "b", "m"⟩⟩),
        dispatched := none, trace := [] } ∧
    (initialRecord ⟨"echo", ⟨"f", "b", "m"⟩⟩).status = .pending ∧
    statusSeq (createTask "u1" (some ⟨"echo", ⟨"f", "b", "m"⟩⟩) (.ok "t1")
        ⟨none, .hthrow "x", .ok [], none, none, none⟩
        ⟨none, .hthrow "x", none, none⟩) = [.pending] :=
  createTask_unknown_type "u1" ⟨"echo", ⟨"f", "b", "m"⟩⟩ "t1"
    ⟨none, .hthrow "x", .ok [], none, none, none⟩
    ⟨none, .hthrow "x", none, none⟩ (by decide) (by decide) (by decide)

/-! ### Submission-time validation -/

/-- C1 as stated is false on the code: a submission with non-empty owner and
an empty task type is not rejected — the pending record is created and its id
returned as success (and no handler ever runs). -/
theorem createTask_empty_type_counterexample :
    (createTask "u1" (some ⟨"", ⟨"", "", ""⟩⟩) (.ok "t1")
        ⟨none, .hthrow "x", .ok [], none, none, none⟩
        ⟨none, .hthrow "x", none, none⟩).ret = .ok "t1" ∧
    (createTask "u1" (some ⟨"", ⟨"", "", ""⟩⟩) (.ok "t1")
        ⟨none, .hthrow "x", .ok [], none, none, none⟩
        ⟨none, .hthrow "x", none, none⟩).record =
      some (initialRecord ⟨"", ⟨"", "", ""⟩⟩) := by
  constructor <;> rfl

/-- C1 amended: only an empty owner identifier or a null task-data argument is
rejected at submission time — the call then returns a validation error
synchronously, creates no task record, and dispatches no handler.  The task
type is not validated. -/
theorem createTask_validation (userId : String) (td : Option TaskData)
    (add : Except String String) (co : ClassifyOracles) (ao : AskOracles)
    (h : userId = "" ∨ td = none) :
    createTask userId td add co ao =
      { ret := .error "User ID and task data are required.",
        record := none, dispatched := none, trace := [] } := by
  unfold createTask
  rw [if_pos h]

/-- Closed instance of `createTask_validation` at an empty owner. -/
theorem createTask_validation_witness :
    createTask "" (some ⟨"askQuestion", ⟨"f", "b", "m"⟩⟩) (.ok "t1")
        ⟨none, .hthrow "x", .ok [], none, none, none⟩
        ⟨none, .hthrow "x", none, none⟩ =
      { ret := .error "User ID and task data are required.",
        record := none, dispatched := none, trace := [] } :=
  createTask_validation "" (some ⟨"askQuestion", ⟨"f", "b", "m"⟩⟩) (.ok "t1")
    ⟨none, .hthrow "x", .ok [], none, none, none⟩
    ⟨none, .hthrow "x", none, none⟩ (Or.inl rfl)

/-! ### Subscription behaviour -/

/-- After `unsubscribe()` has been called, no snapshot delivery changes the
hook state any more. -/
theorem runHook_frozen :
    ∀ (es : List SnapEvent) (s : HookState), s.unsubscribed = true →
      runHook s es = s
  | [], _, _ => rfl
  | e :: rest, s, h => by
    show runHook (hookStep s e) rest = s
    have hstep : hookStep s e = s := by simp [hookStep, h]
    rw [hstep]
    exact runHook_frozen rest s h

/-- A callback log containing no terminal record satisfies
`terminalOnlyLast`. -/
theorem terminalOnlyLast_of_nonterminal :
    ∀ (l : List TaskRecord),
      (∀ r ∈ l, r.status.isTerminal = false) → terminalOnlyLast l = true
  | [], _ => rfl
  | [_], _ => rfl
  | r :: q :: rest, h => by
    have hr : r.status.isTerminal = false := h r (by simp)
    have htail : terminalOnlyLast (q :: rest) = true :=
      terminalOnlyLast_of_nonterminal (q :: rest)
        (fun x hx => h x (List.mem_cons_of_mem _ hx))
    simp [terminalOnlyLast, hr, htail]

/-- Appending one record to a log of non-terminal records satisfies
`terminalOnlyLast`. -/
theorem terminalOnlyLast_append :
    ∀ (l : List TaskRecord) (t : TaskRecord),
      (∀ r ∈ l, r.status.isTerminal = false) →
      terminalOnlyLast (l ++ [t]) = true
  | [], _, _ => rfl
  | [r], t, h => by
    have hr : r.status.isTerminal = false := h r (by simp)
    simp [terminalOnlyLast, hr]
  | r :: q :: rest, t, h => by
    have hr : r.status.isTerminal = false := h r (by simp)
    have htail : terminalOnlyLast ((q :: rest) ++ [t]) = true :=
      terminalOnlyLast_append (q :: rest) t
        (fun x hx => h x (List.mem_cons_of_mem _ hx))
    simp only [List.cons_append] at htail ⊢
    simp [terminalOnlyLast, hr, htail]

/-- Core invariant of the subscription: starting from a live subscription
whose callback log holds no terminal record, every element of the final
callback log except possibly the last is non-terminal. -/
theorem runHook_terminalOnlyLast :
    ∀ (es : List SnapEvent) (s : HookState), s.unsubscribed = false →
      (∀ r ∈ s.updates, r.status.isTerminal = false) →
      terminalOnlyLast (runHook s es).updates = true
  | [], s, _, hl => terminalOnlyLast_of_nonterminal s.updates hl
  | e :: rest, s, hu, hl => by
    show terminalOnlyLast (runHook (hookStep s e) rest).updates = true
    cases e with
    | found t =>
      cases ht : t.status.isTerminal with
      | true =>
        have hstep : hookStep s (.found t) =
            { s with task := some t, updates := s.updates ++ [t],
                     isLoading := false, unsubscribed := true } := by
          simp [hookStep, hu, ht]
        rw [hstep, runHook_frozen rest _ rfl]
        exact terminalOnlyLast_append s.updates t hl
      | false =>
        have hstep : hookStep s (.found t) =
            { s with task := some t, updates := s.updates ++ [t] } := by
          simp [hookStep, hu, ht]
        rw [hstep]
        refine runHook_terminalOnlyLast rest _ ?_ ?_
        · exact hu
        intro r hr
        rcases List.mem_append.mp hr with h1 | h1
        · exact hl r h1
        · rw [List.mem_singleton.mp h1]
          exact ht
    | absent =>
      have hstep : hookStep s .absent =
          { s with error := some "Task not found.", isLoading := false } := by
        simp [hookStep, hu]
      rw [hstep]
      exact runHook_terminalOnlyLast rest _ hu hl
    | listenError =>
      have hstep : hookStep s .listenError =
          { s with error := some "Failed to get task status.",
                   isLoading := false } := by
        simp [hookStep, hu]
      rw [hstep]
      exact runHook_terminalOnlyLast rest _ hu hl

/-- C7: over any sequence of snapshot deliveries, every `onUpdate` callback
except possibly the last carries a non-terminal record — once a terminal
record is delivered the subscription is cancelled inside the dispatch and no
further callback fires; and when the first delivery already carries a
terminal record, exactly one callback fires, with that record. -/
theorem useTask_stops_at_terminal (es rest : List SnapEvent) (t : TaskRecord)
    (ht : t.status.isTerminal = true) :
    terminalOnlyLast (runHook initHookState es).updates = true ∧
    (runHook initHookState (SnapEvent.found t :: rest)).updates = [t] := by
  constructor
  · exact runHook_terminalOnlyLast es initHookState rfl
      (fun r hr => absurd hr (List.not_mem_nil r))
  · show (runHook (hookStep initHookState (.found t)) rest).updates = [t]
    have hstep : hookStep initHookState (.found t) =
        { task := some t, isLoading := false, error := none,
          updates := [t], unsubscribed := true } := by
      simp [hookStep, initHookState, ht]
    rw [hstep, runHook_frozen rest _ rfl]

/-- Closed instance of `useTask_stops_at_terminal`: subscribing to an
already-completed task yields exactly its one terminal callback, even with
further deliveries pending. -/
theorem useTask_stops_at_terminal_witness :
    terminalOnlyLast (runHook initHookState []).updates = true ∧
    (runHook initHookState
        [SnapEvent.found
          { type := "askQuestion", payload := ⟨"f", "b", "m"⟩,
            status := .completed, result := some (.answer ⟨"a"⟩),
            error := none },
         SnapEvent.found
          { type := "askQuestion", payload := ⟨"f", "b", "m"⟩,
            status := .failed, result := none, error := some "late" }]).updates =
      [{ type := "askQuestion", payload := ⟨"f", "b", "m"⟩,
         status := .completed, result := some (.answer ⟨"a"⟩),
         error := none }] :=
  useTask_stops_at_terminal []
    [SnapEvent.found
      { type := "askQuestion", payload := ⟨"f", "b", "m"⟩,
        status := .failed, result := none, error := some "late" }]
    { type := "askQuestion", payload := ⟨"f", "b", "m"⟩,
      status := .completed, result := some (.answer ⟨"a"⟩), error := none }
    rfl

/-- Over deliveries that all report a missing document, the hook ends with the
not-found error set and an empty callback log. -/
theorem runHook_all_absent :
    ∀ (es : List SnapEvent) (s : HookState), s.unsubscribed = false →
      (∀ e ∈ es, e = SnapEvent.absent) → es ≠ [] →
      runHook s es =
        { s with error := some "Task not found.", isLoading := false }
  | [], _, _, _, hne => absurd rfl hne
  | e :: rest, s, hu, hall, _ => by
    have he : e = SnapEvent.absent := hall e (by simp)
    subst he
    show runHook (hookStep s .absent) rest = _
    have hstep : hookStep s .absent =
        { s with error := some "Task not found.", isLoading := false } := by
      simp [hookStep, hu]
    rw [hstep]
    cases rest with
    | nil => rfl
    | cons e2 rest2 =>
      rw [runHook_all_absent (e2 :: rest2)
        { s with error := some "Task not found.", isLoading := false } hu
        (fun x hx => hall x (List.mem_cons_of_mem _ hx)) (by simp)]

/-- C8: when the subscribed task id matches no record — every snapshot reports
a missing document — the hook reports the not-found condition and the
`onUpdate` callback never fires. -/
theorem useTask_not_found (es : List SnapEvent)
    (hall : ∀ e ∈ es, e = SnapEvent.absent) (hne : es ≠ []) :
    (runHook initHookState es).updates = [] ∧
    (runHook initHookState es).error = some "Task not found." := by
  rw [runHook_all_absent es initHookState rfl hall hne]
  exact ⟨rfl, rfl⟩

/-- Closed instance of `useTask_not_found`. -/
theorem useTask_not_found_witness :
    (runHook initHookState [SnapEvent.absent, SnapEvent.absent]).updates = [] ∧
    (runHook initHookState [SnapEvent.absent, SnapEvent.absent]).error =
      some "Task not found." :=
  useTask_not_found [SnapEvent.absent, SnapEvent.absent]
    (by intro e he; simpa using he) (by simp)

end LegalIntel
